import Mathlib

/-!
Verification of the UpLink Discord ticket bot against its specification.

The definitions below are a shallow embedding of the Python sources:

* `src/database.py`  — `DatabaseManager` (PostgreSQL CRUD on the `tickets` table)
* `src/main.py`      — `TicketBot.auto_close_tickets` sweep and `main`
* `src/config.py`    — `validate_config`, `BOT_CONFIG`
* `src/modules/ui/views.py`  — `TicketView.open_ticket` button callback
* `src/modules/ui/modals.py` — `DescriptionModal._prepare_channel` and
  `DescriptionModal._create_channel_with_ticket`
* `src/app.py`       — `StickerDatabaseManager.add_sticker` (SQLite)
* `src/keep_alive.py` — `KeepAliveSystem.get_stats`

The database is modelled as an in-memory list of rows plus the `SERIAL`
counter; each `DatabaseManager` method takes a `DbEnv` recording whether
`get_connection` returned a connection (`connOk`) and whether any statement
of the method raised (`queryFails`), matching the uniform
`try/except → sentinel` structure of the Python methods.  Timestamps are
integers (seconds); `CURRENT_TIMESTAMP` becomes an explicit `now` argument.
-/

/-- One row of the `tickets` table created by
`DatabaseManager.init_database` (src/database.py lines 90-104):
`id SERIAL PRIMARY KEY, user_id BIGINT, user_name VARCHAR, channel_id BIGINT
UNIQUE, reason VARCHAR, description TEXT, status VARCHAR DEFAULT 'open',
created_at TIMESTAMP DEFAULT CURRENT_TIMESTAMP, closed_at TIMESTAMP NULL,
paused_at TIMESTAMP NULL, paused_by VARCHAR NULL`. -/
structure Ticket where
  id : Nat
  user_id : Nat
  user_name : String
  channel_id : Nat
  reason : String
  description : String
  status : String
  created_at : Int
  closed_at : Option Int
  paused_at : Option Int
  paused_by : Option String
deriving DecidableEq

/-- State of the `tickets` table: the rows plus the next `SERIAL` id. -/
structure DB where
  rows : List Ticket
  nextId : Nat
deriving DecidableEq

/-- Failure environment of one `DatabaseManager` method call: `connOk` is
whether `get_connection` returned a connection (src/database.py lines 34-51
return `None` on `psycopg2.Error`), and `queryFails` is whether a statement
inside the method body raised (caught by the method's `except` clause).
A raise before `commit` leaves the table unchanged (transaction rollback). -/
structure DbEnv where
  connOk : Bool
  queryFails : Bool
deriving DecidableEq

/-- The environment of a successful call: connection obtained, no raise. -/
def DbEnv.ok : DbEnv := ⟨true, false⟩

/-- Ordering used by `ORDER BY id DESC`. -/
def byIdDesc (a b : Ticket) : Prop := b.id ≤ a.id

/-- Ordering used by `ORDER BY created_at ASC`. -/
def byCreatedAsc (a b : Ticket) : Prop := a.created_at ≤ b.created_at

instance : DecidableRel byIdDesc := fun a b => inferInstanceAs (Decidable (b.id ≤ a.id))

instance : DecidableRel byCreatedAsc :=
  fun a b => inferInstanceAs (Decidable (a.created_at ≤ b.created_at))

instance : IsTotal Ticket byIdDesc := ⟨fun a b => Nat.le_total b.id a.id⟩

instance : IsTrans Ticket byIdDesc := ⟨fun _ _ _ h1 h2 => Nat.le_trans h2 h1⟩

instance : IsTotal Ticket byCreatedAsc := ⟨fun a b => Int.le_total a.created_at b.created_at⟩

instance : IsTrans Ticket byCreatedAsc := ⟨fun _ _ _ h1 h2 => Int.le_trans h1 h2⟩

/-- Result list of `SELECT ... ORDER BY id DESC`. -/
def sortByIdDesc (l : List Ticket) : List Ticket := List.insertionSort byIdDesc l

/-- Result list of `SELECT ... ORDER BY created_at ASC`. -/
def sortByCreatedAsc (l : List Ticket) : List Ticket := List.insertionSort byCreatedAsc l

/-- SQL `UPDATE tickets SET ... WHERE cond`: returns the updated rows and
`cursor.rowcount`, the number of rows matching the `WHERE` clause. -/
def sqlUpdate (cond : Ticket → Bool) (upd : Ticket → Ticket) (rows : List Ticket) :
    List Ticket × Nat :=
  (rows.map (fun r => if cond r then upd r else r), rows.countP cond)

/-- Row built by the `INSERT INTO tickets (user_id, user_name, channel_id,
reason, description)` of `create_ticket`: `status` and `created_at` come from
the schema defaults `'open'` and `CURRENT_TIMESTAMP`. -/
def newTicketRow (tid uid : Nat) (uname : String) (cid : Nat)
    (reason description : String) (now : Int) : Ticket :=
  ⟨tid, uid, uname, cid, reason, description, "open", now, none, none, none⟩

/-- Embeds `DatabaseManager.create_ticket` (src/database.py lines 129-166).
An `INSERT` violating the `UNIQUE` constraint on `channel_id` raises, is
caught by the method's `except`, and yields the `None` sentinel with the
table unchanged. -/
def create_ticket (env : DbEnv) (db : DB) (uid : Nat) (uname : String)
    (cid : Nat) (reason description : String) (now : Int) : Option Nat × DB :=
  if !env.connOk then (none, db)
  else if env.queryFails then (none, db)
  else if db.rows.any (fun r => r.channel_id == cid) then (none, db)
  else (some db.nextId,
    ⟨db.rows ++ [newTicketRow db.nextId uid uname cid reason description now],
     db.nextId + 1⟩)

/-- `SELECT * FROM tickets WHERE channel_id = %s ORDER BY id DESC LIMIT 1`. -/
def latestByChannel (rows : List Ticket) (cid : Nat) : Option Ticket :=
  (sortByIdDesc (rows.filter (fun r => r.channel_id == cid))).head?

/-- `SELECT * FROM tickets WHERE user_id = %s ORDER BY id DESC LIMIT 1`. -/
def latestByUser (rows : List Ticket) (uid : Nat) : Option Ticket :=
  (sortByIdDesc (rows.filter (fun r => r.user_id == uid))).head?

/-- Embeds `DatabaseManager.get_ticket_by_channel` (src/database.py
lines 168-193). -/
def get_ticket_by_channel (env : DbEnv) (db : DB) (cid : Nat) : Option Ticket :=
  if !env.connOk then none
  else if env.queryFails then none
  else latestByChannel db.rows cid

/-- Embeds `DatabaseManager.get_user_latest_ticket` (src/database.py
lines 195-225). -/
def get_user_latest_ticket (env : DbEnv) (db : DB) (uid : Nat) : Option Ticket :=
  if !env.connOk then none
  else if env.queryFails then none
  else latestByUser db.rows uid

/-- Embeds `DatabaseManager.get_user_tickets` (src/database.py
lines 227-258): `SELECT * FROM tickets WHERE user_id = %s ORDER BY id DESC
LIMIT %s`. -/
def get_user_tickets (env : DbEnv) (db : DB) (uid : Nat) (limit : Nat) :
    List Ticket :=
  if !env.connOk then []
  else if env.queryFails then []
  else (sortByIdDesc (db.rows.filter (fun r => r.user_id == uid))).take limit

/-- The row update performed by `close_ticket`:
`SET status = 'closed', closed_at = CURRENT_TIMESTAMP`. -/
def closedRow (now : Int) (r : Ticket) : Ticket :=
  { r with status := "closed", closed_at := some now }

/-- The `WHERE channel_id = %s AND status != 'closed'` clause of
`close_ticket`. -/
def closeCond (cid : Nat) (r : Ticket) : Bool :=
  r.channel_id == cid && r.status != "closed"

/-- Embeds `DatabaseManager.close_ticket` (src/database.py lines 260-293):
`UPDATE ... WHERE channel_id = %s AND status != 'closed'`, returning
`cursor.rowcount > 0`. -/
def close_ticket (env : DbEnv) (db : DB) (cid : Nat) (now : Int) : Bool × DB :=
  if !env.connOk then (false, db)
  else if env.queryFails then (false, db)
  else
    let u := sqlUpdate (closeCond cid) (closedRow now) db.rows
    (decide (0 < u.2), { db with rows := u.1 })

/-- The row update performed by `reopen_ticket`:
`SET status = 'open', reason = %s, description = %s, closed_at = NULL,
paused_at = NULL, paused_by = NULL, created_at = CURRENT_TIMESTAMP`. -/
def reopenedRow (reason description : String) (now : Int) (r : Ticket) : Ticket :=
  { r with status := "open", reason := reason, description := description,
           closed_at := none, paused_at := none, paused_by := none,
           created_at := now }

/-- Embeds `DatabaseManager.reopen_ticket` (src/database.py lines 295-341):
selects the latest row for the channel, returns `None` if there is none,
otherwise updates that row by id and returns its id. -/
def reopen_ticket (env : DbEnv) (db : DB) (cid : Nat)
    (reason description : String) (now : Int) : Option Nat × DB :=
  if !env.connOk then (none, db)
  else if env.queryFails then (none, db)
  else
    match latestByChannel db.rows cid with
    | none => (none, db)
    | some t =>
        let u := sqlUpdate (fun r => r.id == t.id) (reopenedRow reason description now) db.rows
        (some t.id, { db with rows := u.1 })

/-- Embeds `DatabaseManager.pause_ticket` (src/database.py lines 343-375):
`UPDATE ... SET status = 'paused', paused_at = CURRENT_TIMESTAMP,
paused_by = %s WHERE channel_id = %s AND status = 'open'`. -/
def pause_ticket (env : DbEnv) (db : DB) (cid : Nat) (pausedBy : String)
    (now : Int) : Bool × DB :=
  if !env.connOk then (false, db)
  else if env.queryFails then (false, db)
  else
    let u := sqlUpdate (fun r => r.channel_id == cid && r.status == "open")
      (fun r => { r with status := "paused", paused_at := some now,
                         paused_by := some pausedBy }) db.rows
    (decide (0 < u.2), { db with rows := u.1 })

/-- Embeds `DatabaseManager.unpause_ticket` (src/database.py lines 377-408):
`UPDATE ... SET status = 'open', paused_at = NULL, paused_by = NULL
WHERE channel_id = %s AND status = 'paused'`. -/
def unpause_ticket (env : DbEnv) (db : DB) (cid : Nat) : Bool × DB :=
  if !env.connOk then (false, db)
  else if env.queryFails then (false, db)
  else
    let u := sqlUpdate (fun r => r.channel_id == cid && r.status == "paused")
      (fun r => { r with status := "open", paused_at := none, paused_by := none }) db.rows
    (decide (0 < u.2), { db with rows := u.1 })

/-- Embeds `DatabaseManager.get_open_tickets` (src/database.py
lines 410-432): `SELECT * FROM tickets WHERE status = 'open' ORDER BY
created_at ASC`. -/
def get_open_tickets (env : DbEnv) (db : DB) : List Ticket :=
  if !env.connOk then []
  else if env.queryFails then []
  else sortByCreatedAsc (db.rows.filter (fun r => r.status == "open"))

/-- Embeds `DatabaseManager.get_ticket_stats` (src/database.py
lines 434-470); the returned dict is modelled as an association list and the
empty dict sentinel as `[]`. -/
def get_ticket_stats (env : DbEnv) (db : DB) : List (String × Nat) :=
  if !env.connOk then []
  else if env.queryFails then []
  else
    [("total", db.rows.length),
     ("open", db.rows.countP (fun r => r.status == "open")),
     ("closed", db.rows.countP (fun r => r.status == "closed")),
     ("paused", db.rows.countP (fun r => r.status == "paused"))]

/-- Value of `BOT_CONFIG['auto_close_hours']` (src/config.py line 31). -/
def autoCloseHours : Nat := 12

/-- The `timedelta(hours=BOT_CONFIG['auto_close_hours'])` threshold of the
auto-close task, in seconds. -/
def autoCloseDelta : Int := (autoCloseHours : Int) * 3600

/-- Embeds one iteration of `TicketBot.auto_close_tickets` (src/main.py
lines 172-193): fetch the open tickets, and for each one whose age is at
least the threshold, look up its channel with `self.get_channel`
(modelled by the predicate `chans`) and, only when the channel still
exists, run `close_ticket_channel`, whose database effect is
`DatabaseManager.close_ticket` (src/utils/helpers.py line 65). -/
def auto_close_tickets (chans : Nat → Bool) (now : Int) (db : DB) : DB :=
  (get_open_tickets DbEnv.ok db).foldl
    (fun d t =>
      if autoCloseDelta ≤ now - t.created_at then
        if chans t.channel_id then (close_ticket DbEnv.ok d t.channel_id now).2 else d
      else d) db

/-- Embeds the guard of `TicketView.open_ticket` (src/modules/ui/views.py
lines 28-61): fetch the user's five most recent tickets, keep those with
status `'open'`, and refuse (send the "you already have a ticket" reply and
return) exactly when the first such ticket's channel still exists in the
guild (`interaction.guild.get_channel`, modelled by `chans`). -/
def open_ticket_refuses (db : DB) (chans : Nat → Bool) (uid : Nat) : Bool :=
  match (get_user_tickets DbEnv.ok db uid 5).filter (fun t => t.status == "open") with
  | [] => false
  | t :: _ => chans t.channel_id

/-- Mirrors the dataclass `TicketChannelContext` of src/modules/ui/modals.py
(channel object replaced by its id). -/
structure TicketChannelContext where
  channel : Nat
  ticket_id : Option Nat
  is_reopened : Bool
deriving DecidableEq

/-- Result of `DescriptionModal._prepare_channel`: the returned context (or
`None`), the database afterwards, and the ids of the text channels created
by `category.create_text_channel` during the call. -/
structure PrepareOutcome where
  context : Option TicketChannelContext
  db : DB
  createdChannels : List Nat
deriving DecidableEq

/-- Embeds `DescriptionModal._create_channel_with_ticket`
(src/modules/ui/modals.py lines 216-251): create one new text channel
(whose fresh Discord id is the parameter `freshChan`) and insert one ticket
row for it with `DatabaseManager.create_ticket`. -/
def create_channel_with_ticket (env : DbEnv) (db : DB) (uid : Nat)
    (uname : String) (reason description : String) (now : Int)
    (freshChan : Nat) : PrepareOutcome :=
  let c := create_ticket env db uid uname freshChan reason description now
  ⟨some ⟨freshChan, c.1, false⟩, c.2, [freshChan]⟩

/-- Embeds `DescriptionModal._prepare_channel` (src/modules/ui/modals.py
lines 168-181): if the user has a latest ticket and its channel still
exists, reopen that ticket in place (`_reopen_existing_ticket`, lines
183-214, which returns `None` when `reopen_ticket` fails); otherwise create
a new channel and row via `_create_channel_with_ticket`. -/
def prepare_channel (env : DbEnv) (db : DB) (chans : Nat → Bool) (uid : Nat)
    (uname : String) (reason description : String) (now : Int)
    (freshChan : Nat) : PrepareOutcome :=
  match get_user_latest_ticket env db uid with
  | some t =>
      if chans t.channel_id then
        let r := reopen_ticket env db t.channel_id reason description now
        match r.1 with
        | none => ⟨none, r.2, []⟩
        | some tid => ⟨some ⟨t.channel_id, some tid, true⟩, r.2, []⟩
      else create_channel_with_ticket env db uid uname reason description now freshChan
  | none => create_channel_with_ticket env db uid uname reason description now freshChan

/-- One row of the SQLite table `user_stickers` created by
`StickerDatabaseManager.init_sticker_db` (src/app.py lines 340-356):
`user_id INTEGER, sticker_id INTEGER, acquired_at TIMESTAMP DEFAULT
CURRENT_TIMESTAMP, PRIMARY KEY (user_id, sticker_id)`. -/
structure StickerRow where
  user_id : Nat
  sticker_id : Nat
  acquired_at : Int
deriving DecidableEq

/-- Embeds `StickerDatabaseManager.add_sticker` (src/app.py lines 358-369):
`INSERT OR IGNORE INTO user_stickers (user_id, sticker_id) VALUES (?, ?)`,
returning `cursor.rowcount > 0`; `fails` models the `except` path. -/
def add_sticker (fails : Bool) (rows : List StickerRow) (uid sid : Nat)
    (now : Int) : Bool × List StickerRow :=
  if fails then (false, rows)
  else if rows.any (fun r => r.user_id == uid && r.sticker_id == sid) then (false, rows)
  else (true, rows ++ [⟨uid, sid, now⟩])

/-- Whether the pair `(uid, sid)` already appears in `user_stickers`. -/
def hasSticker (rows : List StickerRow) (uid sid : Nat) : Bool :=
  rows.any (fun r => r.user_id == uid && r.sticker_id == sid)

/-- The dict returned by `KeepAliveSystem.get_stats` (src/keep_alive.py
lines 61-72). Numeric values are modelled exactly over the rationals. -/
structure KeepAliveStats where
  successful_pings : Nat
  failed_pings : Nat
  total_pings : Nat
  success_rate : ℚ
  is_running : Bool
deriving DecidableEq

/-- Round-half-to-even on the rationals, the rounding rule of the builtin
`round`. -/
def roundHalfEven (q : ℚ) : Int :=
  let n := ⌊q⌋
  let r := q - (n : ℚ)
  if r < 1 / 2 then n
  else if (1 : ℚ) / 2 < r then n + 1
  else if n % 2 = 0 then n else n + 1

/-- `round(x, 2)`: round to two decimal places. -/
def roundTo2 (q : ℚ) : ℚ := (roundHalfEven (q * 100) : ℚ) / 100

/-- Embeds `KeepAliveSystem.get_stats` (src/keep_alive.py lines 61-72):
`total_pings = successful + failed`;
`success_rate = successful / total * 100 if total > 0 else 0`, rounded to
two decimals; `is_running` is whatever `keep_alive_task.is_running()`
reports. -/
def get_stats (successful failed : Nat) (running : Bool) : KeepAliveStats :=
  let total := successful + failed
  let rate : ℚ := if 0 < total then (successful : ℚ) / (total : ℚ) * 100 else 0
  ⟨successful, failed, total, roundTo2 rate, running⟩

/-- Error message raised by `validate_config` on a missing token. -/
def missingTokenMsg : String :=
  "DISCORD_TOKEN não encontrado nas variáveis de ambiente!"

/-- Embeds `validate_config` (src/config.py lines 80-84): `DISCORD_TOKEN`
is `os.getenv('DISCORD_TOKEN')` (absent variable gives `None`), and
`if not DISCORD_TOKEN` also treats the empty string as missing; a missing
token raises `ValueError`, modelled by `Except.error`. -/
def validate_config (token : Option String) : Except String Bool :=
  match token with
  | none => Except.error missingTokenMsg
  | some t => if t = "" then Except.error missingTokenMsg else Except.ok true

/-- How the `main` of src/main.py terminates. -/
inductive MainOutcome
  | configErrorLogged
  | startErrorLogged
  | botRan
deriving DecidableEq

/-- Embeds `main` (src/main.py lines 262-290) as run by the
`if __name__ == "__main__"` guard: `validate_config` raising `ValueError`
is caught by `except ValueError` which only calls `logger.error` and falls
off the end of `main`, so the interpreter exits normally; any exception
from starting the bot is likewise caught and logged.  The second component
is the resulting process exit status — `0` in every branch because no
branch calls `sys.exit` or re-raises. -/
def mainRun (token : Option String) (startOk : Bool) : MainOutcome × Nat :=
  match validate_config token with
  | Except.error _ => (MainOutcome.configErrorLogged, 0)
  | Except.ok _ =>
      if startOk then (MainOutcome.botRan, 0) else (MainOutcome.startErrorLogged, 0)

/-- Stale open ticket used to exercise the auto-close sweep when its Discord
channel no longer exists. -/
def cexStaleTicket : Ticket := ⟨1, 1, "user", 10, "Arbo", "desc", "open", 0, none, none, none⟩

/-- Database holding only `cexStaleTicket`. -/
def cexDB1 : DB := ⟨[cexStaleTicket], 2⟩

/-- A guild in which `get_channel` finds no channel at all. -/
def cexNoChannels : Nat → Bool := fun _ => false

/-- A time far past the auto-close threshold of `cexStaleTicket`. -/
def cexNow1 : Int := 100000

/-- Older open ticket of user 1 whose channel 10 still exists. -/
def cexTicketA : Ticket := ⟨1, 1, "user", 10, "Arbo", "desc", "open", 0, none, none, none⟩

/-- Newer open ticket of user 1 whose channel 20 was deleted. -/
def cexTicketB : Ticket := ⟨2, 1, "user", 20, "Lais", "desc", "open", 5, none, none, none⟩

/-- Database holding the two open tickets of user 1. -/
def cexDB4 : DB := ⟨[cexTicketA, cexTicketB], 3⟩

/-- A guild in which only channel 10 exists. -/
def cexChans4 : Nat → Bool := fun c => c == 10

/-- The status domain of the spec: `status ∈ {open, paused, closed}`. -/
def ValidStatus (s : String) : Prop := s = "open" ∨ s = "paused" ∨ s = "closed"

/-- Every row of the table carries a status in the valid domain. -/
def DBStatusOk (db : DB) : Prop := ∀ r ∈ db.rows, ValidStatus r.status

instance (s : String) : Decidable (ValidStatus s) :=
  inferInstanceAs (Decidable (s = "open" ∨ s = "paused" ∨ s = "closed"))

instance (db : DB) : Decidable (DBStatusOk db) :=
  inferInstanceAs (Decidable (∀ r ∈ db.rows, ValidStatus r.status))

/-- Pointwise effect of the auto-close sweep on a single row: folding the
per-ticket step of `auto_close_tickets` over the snapshot list `ts`.  Used
to characterise the sweep, which applies `close_ticket`, a pointwise map
over the rows, once per snapshot ticket. -/
def applyClose (chans : Nat → Bool) (now : Int) (ts : List Ticket) (r : Ticket) : Ticket :=
  ts.foldl
    (fun s t =>
      if autoCloseDelta ≤ now - t.created_at then
        if chans t.channel_id then
          (if closeCond t.channel_id s then closedRow now s else s)
        else s
      else s) r

/-- Open ticket of user 1 in channel 10, created at time 0. -/
def wOpenA : Ticket := ⟨1, 1, "alice", 10, "Arbo", "d1", "open", 0, none, none, none⟩

/-- Closed ticket of user 2 in channel 20. -/
def wClosedB : Ticket := ⟨2, 2, "bob", 20, "Lais", "d2", "closed", 100, some 200, none, none⟩

/-- Paused ticket of user 3 in channel 30. -/
def wPausedC : Ticket := ⟨3, 3, "carol", 30, "Outros", "d3", "paused", 50, none, some 60, some "admin"⟩

/-- Open ticket of user 4 in channel 40, created at time 30000. -/
def wOpenD : Ticket := ⟨4, 4, "dan", 40, "SendPulse", "d4", "open", 30000, none, none, none⟩

/-- Sample table holding one ticket of each status. -/
def wDB3 : DB := ⟨[wOpenA, wClosedB, wPausedC], 4⟩

/-- Sample table that adds a second, younger open ticket. -/
def wDBfull : DB := ⟨[wOpenA, wClosedB, wPausedC, wOpenD], 5⟩

/-- A guild in which every channel exists. -/
def wAllChans : Nat → Bool := fun _ => true

/-- C8 counterexample: with `DISCORD_TOKEN` absent from the environment,
`validate_config` does raise `ValueError`, but `main` (src/main.py lines
283-284) catches it, only logs, and falls off the end, so the process exit
status is `0` — not the non-zero exit the claim states. -/
theorem main_missing_token_counterexample :
    validate_config none = Except.error missingTokenMsg ∧
    mainRun none true = (MainOutcome.configErrorLogged, 0) := ⟨rfl, rfl⟩

/-- C8 (amended): when the bot token is missing (variable unset, or set to
the empty string), `validate_config` raises `ValueError`; `main` catches
it, logs the configuration error, and returns normally, so the process
exits with status `0`, regardless of whether the bot could otherwise have
started. -/
theorem main_missing_token_exit_status (startOk : Bool) :
    validate_config none = Except.error missingTokenMsg ∧
    validate_config (some "") = Except.error missingTokenMsg ∧
    mainRun none startOk = (MainOutcome.configErrorLogged, 0) ∧
    mainRun (some "") startOk = (MainOutcome.configErrorLogged, 0) :=
  ⟨rfl, rfl, rfl, rfl⟩

/-- C10: `KeepAliveSystem.get_stats` reports `total_pings` as the sum of the
two counters, a `success_rate` of `0` when no ping has been recorded, and
otherwise the percentage `successful / total * 100` rounded to two
decimals; the division is guarded by `total_pings > 0`, so it is never a
division by zero. -/
theorem get_stats_spec (s f : Nat) (running : Bool) :
    (get_stats s f running).total_pings = s + f ∧
    (get_stats s f running).successful_pings = s ∧
    (get_stats s f running).failed_pings = f ∧
    (get_stats s f running).is_running = running ∧
    (s + f = 0 → (get_stats s f running).success_rate = 0) ∧
    (0 < s + f →
      (get_stats s f running).success_rate =
        roundTo2 ((s : ℚ) / ((s + f : Nat) : ℚ) * 100)) := by
  refine ⟨rfl, rfl, rfl, rfl, ?_, ?_⟩
  · intro h
    simp only [get_stats, h]
    norm_num [roundTo2, roundHalfEven]
  · intro h
    simp [get_stats, h]

/-- C10 witness: the spec of `get_stats` evaluated at one successful and two
failed pings, and at no pings at all. -/
theorem get_stats_spec_witness :
    (0 < 1 + 2 ∧
      (get_stats 1 2 true).success_rate =
        roundTo2 ((1 : ℚ) / (((1 + 2 : Nat)) : ℚ) * 100)) ∧
    ((0 : Nat) + 0 = 0 ∧ (get_stats 0 0 false).success_rate = 0) :=
  ⟨⟨by decide, (get_stats_spec 1 2 true).2.2.2.2.2 (by decide)⟩,
   ⟨rfl, (get_stats_spec 0 0 false).2.2.2.2.1 rfl⟩⟩

/-- C5: `add_sticker` is idempotent per `(user_id, sticker_id)` pair: when
the pair is not yet in `user_stickers`, the first call appends exactly one
row and returns `True`, and a second call with the same pair returns
`False` and leaves the table unchanged (the `INSERT OR IGNORE` under the
primary key on the pair inserts nothing). -/
theorem add_sticker_spec (rows : List StickerRow) (uid sid : Nat) (now now2 : Int)
    (h : hasSticker rows uid sid = false) :
    add_sticker false rows uid sid now = (true, rows ++ [⟨uid, sid, now⟩]) ∧
    add_sticker false (rows ++ [⟨uid, sid, now⟩]) uid sid now2 =
      (false, rows ++ [⟨uid, sid, now⟩]) := by
  unfold hasSticker at h
  constructor
  · simp [add_sticker, h]
  · simp [add_sticker, List.any_append, h]

/-- C5 witness: redeeming sticker 2 for user 1 on an empty table, then
redeeming it again. -/
theorem add_sticker_spec_witness :
    hasSticker [] 1 2 = false ∧
    add_sticker false [] 1 2 5 = (true, [⟨1, 2, 5⟩]) ∧
    add_sticker false [⟨1, 2, 5⟩] 1 2 9 = (false, [⟨1, 2, 5⟩]) :=
  ⟨rfl, (add_sticker_spec [] 1 2 5 9 rfl).1, (add_sticker_spec [] 1 2 5 9 rfl).2⟩

/-- C6: when a `DatabaseManager` call fails — `get_connection` returned
`None`, or a statement raised and was swallowed by the method's broad
`except` — no exception reaches the caller and each method returns its
sentinel: `None` for `create_ticket`, `reopen_ticket`,
`get_ticket_by_channel` and `get_user_latest_ticket`; `False` for
`close_ticket`, `pause_ticket` and `unpause_ticket`; `[]` for
`get_user_tickets` and `get_open_tickets`; the empty dict for
`get_ticket_stats`.  The final conjunct shows the sentinel of a failed
lookup coincides with a successful lookup that found nothing, so the
caller cannot tell "not found" from "connection failed". -/
theorem db_failure_sentinels (env : DbEnv) (db : DB) (uid cid limit : Nat)
    (uname reason description pausedBy : String) (now : Int)
    (h : env.connOk = false ∨ env.queryFails = true) :
    create_ticket env db uid uname cid reason description now = (none, db) ∧
    reopen_ticket env db cid reason description now = (none, db) ∧
    get_ticket_by_channel env db cid = none ∧
    get_user_latest_ticket env db uid = none ∧
    close_ticket env db cid now = (false, db) ∧
    pause_ticket env db cid pausedBy now = (false, db) ∧
    unpause_ticket env db cid = (false, db) ∧
    get_user_tickets env db uid limit = [] ∧
    get_open_tickets env db = [] ∧
    get_ticket_stats env db = [] ∧
    get_ticket_by_channel env db cid = get_ticket_by_channel DbEnv.ok ⟨[], 1⟩ cid := by
  have hfail : (!env.connOk) = true ∨ ((!env.connOk) = false ∧ env.queryFails = true) := by
    rcases h with h | h
    · exact Or.inl (by simp [h])
    · cases hc : env.connOk
      · exact Or.inl rfl
      · exact Or.inr ⟨rfl, h⟩
  rcases hfail with hf | ⟨hf, hq⟩
  · simp [create_ticket, reopen_ticket, get_ticket_by_channel, get_user_latest_ticket,
      close_ticket, pause_ticket, unpause_ticket, get_user_tickets, get_open_tickets,
      get_ticket_stats, hf, DbEnv.ok, latestByChannel, sortByIdDesc]
  · simp [create_ticket, reopen_ticket, get_ticket_by_channel, get_user_latest_ticket,
      close_ticket, pause_ticket, unpause_ticket, get_user_tickets, get_open_tickets,
      get_ticket_stats, hf, hq, DbEnv.ok, latestByChannel, sortByIdDesc]

/-- C6 witness: a call whose connection attempt failed, on an empty table. -/
theorem db_failure_sentinels_witness :
    ((⟨false, false⟩ : DbEnv).connOk = false ∨ (⟨false, false⟩ : DbEnv).queryFails = true) ∧
    close_ticket ⟨false, false⟩ ⟨[], 1⟩ 7 0 = (false, ⟨[], 1⟩) ∧
    get_ticket_stats ⟨false, false⟩ ⟨[], 1⟩ = [] ∧
    get_ticket_by_channel ⟨false, false⟩ ⟨[], 1⟩ 7 =
      get_ticket_by_channel DbEnv.ok ⟨[], 1⟩ 7 := by
  have h := db_failure_sentinels ⟨false, false⟩ ⟨[], 1⟩ 0 7 3 "u" "r" "d" "p" 0 (Or.inl rfl)
  exact ⟨Or.inl rfl, h.2.2.2.2.1, h.2.2.2.2.2.2.2.2.2.1, h.2.2.2.2.2.2.2.2.2.2⟩

/-- C3: on a live connection, `close_ticket` returns `True` exactly when
some row of the channel has a status other than `'closed'`; it rewrites
exactly the rows matching the `WHERE` clause with `closedRow`, which sets
`status = 'closed'` and a non-null `closed_at`; and when no row matches it
returns `False` and leaves the table untouched. -/
theorem close_ticket_spec (db : DB) (cid : Nat) (now : Int) :
    ((close_ticket DbEnv.ok db cid now).1 = true ↔
      ∃ t ∈ db.rows, t.channel_id = cid ∧ t.status ≠ "closed") ∧
    (close_ticket DbEnv.ok db cid now).2.rows =
      db.rows.map (fun r => if closeCond cid r then closedRow now r else r) ∧
    (∀ r : Ticket, (closedRow now r).status = "closed" ∧
      (closedRow now r).closed_at = some now) ∧
    ((¬ ∃ t ∈ db.rows, t.channel_id = cid ∧ t.status ≠ "closed") →
      close_ticket DbEnv.ok db cid now = (false, db)) := by
  have hcond : ∀ t : Ticket, closeCond cid t = true ↔
      (t.channel_id = cid ∧ t.status ≠ "closed") := by
    intro t; simp [closeCond]
  refine ⟨?_, ?_, fun r => ⟨rfl, rfl⟩, ?_⟩
  · simp only [close_ticket, DbEnv.ok, sqlUpdate, Bool.not_true, Bool.false_eq_true,
      if_false, decide_eq_true_eq]
    rw [List.countP_pos_iff]
    constructor
    · rintro ⟨t, ht, hc⟩
      exact ⟨t, ht, (hcond t).mp hc⟩
    · rintro ⟨t, ht, hc⟩
      exact ⟨t, ht, (hcond t).mpr hc⟩
  · simp [close_ticket, DbEnv.ok, sqlUpdate]
  · intro h
    have hall : ∀ t ∈ db.rows, ¬ closeCond cid t = true := by
      intro t ht hc
      exact h ⟨t, ht, (hcond t).mp hc⟩
    have h0 : db.rows.countP (closeCond cid) = 0 := List.countP_eq_zero.mpr hall
    have hmap : db.rows.map (fun r => if closeCond cid r then closedRow now r else r)
        = db.rows := by
      conv_rhs => rw [← List.map_id db.rows]
      exact List.map_congr_left (fun r hr => by simp [hall r hr])
    simp [close_ticket, DbEnv.ok, sqlUpdate, h0, hmap]

/-- C3 witness: closing channel 10 (whose ticket is open) succeeds, and
closing channel 99 (no ticket) reports `False` and changes nothing. -/
theorem close_ticket_spec_witness :
    (¬ ∃ t ∈ wDB3.rows, t.channel_id = 99 ∧ t.status ≠ "closed") ∧
    close_ticket DbEnv.ok wDB3 99 50 = (false, wDB3) ∧
    (close_ticket DbEnv.ok wDB3 10 50).1 = true := by
  refine ⟨by decide, (close_ticket_spec wDB3 99 50).2.2.2 (by decide), ?_⟩
  exact (close_ticket_spec wDB3 10 50).1.mpr (by decide)

/-- The head of an `ORDER BY id DESC` select over a filtered table is a
matching row of maximal id. -/
theorem head?_sortByIdDesc_filter {p : Ticket → Bool} {rows : List Ticket} {t : Ticket}
    (h : (sortByIdDesc (rows.filter p)).head? = some t) :
    t ∈ rows ∧ p t = true ∧ ∀ r ∈ rows, p r = true → r.id ≤ t.id := by
  cases hs : sortByIdDesc (rows.filter p) with
  | nil => rw [hs] at h; simp at h
  | cons a tl =>
      rw [hs] at h
      have ha : a = t := by simpa using h
      subst ha
      have hperm : List.Perm (a :: tl) (rows.filter p) := by
        rw [← hs]; exact List.perm_insertionSort byIdDesc (rows.filter p)
      have hmem : a ∈ rows.filter p := hperm.mem_iff.mp (List.mem_cons_self a tl)
      have hmem2 := List.mem_filter.mp hmem
      refine ⟨hmem2.1, hmem2.2, ?_⟩
      intro r hr hp
      have hr2 : r ∈ a :: tl := hperm.mem_iff.mpr (List.mem_filter.mpr ⟨hr, hp⟩)
      rcases List.mem_cons.mp hr2 with h | h
      · exact h ▸ le_refl _
      · have hsorted : List.Sorted byIdDesc (sortByIdDesc (rows.filter p)) :=
          List.sorted_insertionSort byIdDesc (rows.filter p)
        rw [hs] at hsorted
        exact (List.sorted_cons.mp hsorted).1 r h

/-- An `ORDER BY id DESC ... LIMIT 1` select over a filter that matches no
row returns nothing. -/
theorem head?_sortByIdDesc_filter_none {p : Ticket → Bool} {rows : List Ticket}
    (h : ∀ r ∈ rows, p r = false) :
    (sortByIdDesc (rows.filter p)).head? = none := by
  have hnil : rows.filter p = [] := by
    apply List.filter_eq_nil_iff.mpr
    intro a ha
    simp [h a ha]
  rw [hnil]
  rfl

/-- An `ORDER BY id DESC ... LIMIT 1` select over a filter with at least one
matching row returns a row. -/
theorem head?_sortByIdDesc_filter_isSome {p : Ticket → Bool} {rows : List Ticket}
    {t : Ticket} (ht : t ∈ rows) (hp : p t = true) :
    ∃ s, (sortByIdDesc (rows.filter p)).head? = some s := by
  cases hs : sortByIdDesc (rows.filter p) with
  | nil =>
      exfalso
      have hmem : t ∈ sortByIdDesc (rows.filter p) :=
        (List.perm_insertionSort byIdDesc (rows.filter p)).mem_iff.mpr
          (List.mem_filter.mpr ⟨ht, hp⟩)
      rw [hs] at hmem
      simp at hmem
  | cons a tl => exact ⟨a, rfl⟩

/-- A successful `latestByChannel` lookup returns a row of the channel with
maximal id. -/
theorem latestByChannel_some {rows : List Ticket} {cid : Nat} {t : Ticket}
    (h : latestByChannel rows cid = some t) :
    t ∈ rows ∧ t.channel_id = cid ∧ ∀ r ∈ rows, r.channel_id = cid → r.id ≤ t.id := by
  obtain ⟨h1, h2, h3⟩ := head?_sortByIdDesc_filter h
  refine ⟨h1, by simpa using h2, ?_⟩
  intro r hr hc
  exact h3 r hr (by simp [hc])

/-- A channel with no rows has no latest ticket. -/
theorem latestByChannel_none {rows : List Ticket} {cid : Nat}
    (h : ∀ r ∈ rows, r.channel_id ≠ cid) : latestByChannel rows cid = none := by
  apply head?_sortByIdDesc_filter_none
  intro r hr
  simp [h r hr]

/-- C2: `reopen_ticket` returns `None` and changes nothing when the channel
has no row; otherwise it picks the channel's row of maximal id, rewrites
exactly that row with `reopenedRow` (status back to `'open'`, the new
reason and description, `closed_at`, `paused_at` and `paused_by` cleared,
`created_at` reset to the current time), and returns that row's id. -/
theorem reopen_ticket_spec (db : DB) (cid : Nat) (reason description : String) (now : Int) :
    ((∀ r ∈ db.rows, r.channel_id ≠ cid) →
      reopen_ticket DbEnv.ok db cid reason description now = (none, db)) ∧
    (∀ t : Ticket, latestByChannel db.rows cid = some t →
      t ∈ db.rows ∧ t.channel_id = cid ∧
      (∀ r ∈ db.rows, r.channel_id = cid → r.id ≤ t.id) ∧
      reopen_ticket DbEnv.ok db cid reason description now =
        (some t.id,
         ⟨db.rows.map
            (fun r => if r.id == t.id then reopenedRow reason description now r else r),
          db.nextId⟩)) ∧
    (∀ r : Ticket,
      (reopenedRow reason description now r).status = "open" ∧
      (reopenedRow reason description now r).reason = reason ∧
      (reopenedRow reason description now r).description = description ∧
      (reopenedRow reason description now r).closed_at = none ∧
      (reopenedRow reason description now r).paused_at = none ∧
      (reopenedRow reason description now r).paused_by = none ∧
      (reopenedRow reason description now r).created_at = now) := by
  refine ⟨?_, ?_, fun r => ⟨rfl, rfl, rfl, rfl, rfl, rfl, rfl⟩⟩
  · intro h
    simp [reopen_ticket, DbEnv.ok, latestByChannel_none h]
  · intro t ht
    obtain ⟨h1, h2, h3⟩ := latestByChannel_some ht
    refine ⟨h1, h2, h3, ?_⟩
    simp [reopen_ticket, DbEnv.ok, ht, sqlUpdate]

/-- C2 witness: reopening channel 20 rewrites its closed ticket in place and
returns its id, and reopening channel 99 (no row) returns nothing. -/
theorem reopen_ticket_spec_witness :
    latestByChannel wDB3.rows 20 = some wClosedB ∧
    reopen_ticket DbEnv.ok wDB3 20 "Lais" "again" 300 =
      (some 2, ⟨[wOpenA, reopenedRow "Lais" "again" 300 wClosedB, wPausedC], 4⟩) ∧
    reopen_ticket DbEnv.ok wDB3 99 "x" "y" 300 = (none, wDB3) := by
  have h := (reopen_ticket_spec wDB3 20 "Lais" "again" 300).2.1 wClosedB (by decide)
  refine ⟨by decide, (h.2.2.2).trans (by decide), ?_⟩
  exact (reopen_ticket_spec wDB3 99 "x" "y" 300).1 (by decide)

/-- An SQL update whose `SET` clause writes a valid status keeps every row
status in the valid domain. -/
theorem DBStatusOk_sqlUpdate {db : DB} {cond : Ticket → Bool} {upd : Ticket → Ticket}
    (h : DBStatusOk db) (hupd : ∀ r : Ticket, ValidStatus (upd r).status) :
    DBStatusOk ⟨(sqlUpdate cond upd db.rows).1, db.nextId⟩ := by
  intro r hr
  simp only [sqlUpdate] at hr
  obtain ⟨s, hs, hse⟩ := List.mem_map.mp hr
  by_cases hcs : cond s
  · rw [← hse, if_pos hcs]; exact hupd s
  · rw [← hse, if_neg hcs]; exact h s hs

/-- An SQL update whose `WHERE` clause matches no row leaves the rows
unchanged. -/
theorem sqlUpdate_id {rows : List Ticket} {cond : Ticket → Bool} {upd : Ticket → Ticket}
    (h : rows.countP cond = 0) :
    (sqlUpdate cond upd rows).1 = rows := by
  have hall := List.countP_eq_zero.mp h
  simp only [sqlUpdate]
  conv_rhs => rw [← List.map_id rows]
  exact List.map_congr_left fun r hr => by simp [hall r hr]

/-- C9: the writes of `DatabaseManager` keep every status in
`{open, paused, closed}` — inserts default to `'open'`, `close_ticket`
writes `'closed'`, `pause_ticket` writes `'paused'`, `unpause_ticket` and
`reopen_ticket` write `'open'` — and `pause_ticket`/`unpause_ticket`
report `True` only when the channel had a row in the required source
status (`'open'` resp. `'paused'`), returning `False` and leaving the
table unchanged otherwise. -/
theorem ticket_status_domain (env : DbEnv) (db : DB) (uid cid : Nat)
    (uname reason description pausedBy : String) (now : Int)
    (h : DBStatusOk db) :
    DBStatusOk (create_ticket env db uid uname cid reason description now).2 ∧
    DBStatusOk (close_ticket env db cid now).2 ∧
    DBStatusOk (pause_ticket env db cid pausedBy now).2 ∧
    DBStatusOk (unpause_ticket env db cid).2 ∧
    DBStatusOk (reopen_ticket env db cid reason description now).2 ∧
    ((pause_ticket env db cid pausedBy now).1 = true →
      ∃ t ∈ db.rows, t.channel_id = cid ∧ t.status = "open") ∧
    ((pause_ticket env db cid pausedBy now).1 = false →
      (pause_ticket env db cid pausedBy now).2 = db) ∧
    ((unpause_ticket env db cid).1 = true →
      ∃ t ∈ db.rows, t.channel_id = cid ∧ t.status = "paused") ∧
    ((unpause_ticket env db cid).1 = false →
      (unpause_ticket env db cid).2 = db) := by
  obtain ⟨c, q⟩ := env
  cases c <;> cases q <;>
    simp only [create_ticket, close_ticket, pause_ticket, unpause_ticket, reopen_ticket,
      Bool.not_true, Bool.not_false, if_true, if_false, Bool.false_eq_true, Bool.true_eq_false]
  case false.false =>
    refine ⟨h, h, h, h, h, ?_⟩; simp
  case false.true =>
    refine ⟨h, h, h, h, h, ?_⟩; simp
  case true.true =>
    refine ⟨h, h, h, h, h, ?_⟩; simp
  case true.false =>
    refine ⟨?_, ?_, ?_, ?_, ?_, ?_, ?_, ?_, ?_⟩
    · split
      · exact h
      · intro r hr
        rcases List.mem_append.mp hr with h1 | h1
        · exact h r h1
        · simp at h1; rw [h1]; exact Or.inl rfl
    · exact DBStatusOk_sqlUpdate h (fun r => Or.inr (Or.inr rfl))
    · exact DBStatusOk_sqlUpdate h (fun r => Or.inr (Or.inl rfl))
    · exact DBStatusOk_sqlUpdate h (fun r => Or.inl rfl)
    · split
      · exact h
      · exact DBStatusOk_sqlUpdate h (fun r => Or.inl rfl)
    · intro h1
      simp only [decide_eq_true_eq] at h1
      obtain ⟨t, ht, hp⟩ := List.countP_pos_iff.mp h1
      simp only [Bool.and_eq_true, beq_iff_eq] at hp
      exact ⟨t, ht, hp.1, hp.2⟩
    · intro h1
      simp only [decide_eq_false_iff_not, Nat.not_lt, Nat.le_zero] at h1
      obtain ⟨rs, n⟩ := db
      simp [sqlUpdate_id h1]
    · intro h1
      simp only [decide_eq_true_eq] at h1
      obtain ⟨t, ht, hp⟩ := List.countP_pos_iff.mp h1
      simp only [Bool.and_eq_true, beq_iff_eq] at hp
      exact ⟨t, ht, hp.1, hp.2⟩
    · intro h1
      simp only [decide_eq_false_iff_not, Nat.not_lt, Nat.le_zero] at h1
      obtain ⟨rs, n⟩ := db
      simp [sqlUpdate_id h1]

/-- C9 witness: on the three-ticket table, closing keeps the domain valid,
pausing the already-paused channel 30 reports `False` and changes nothing,
and unpausing it reports `True` because its row is `'paused'`. -/
theorem ticket_status_domain_witness :
    DBStatusOk wDB3 ∧
    DBStatusOk (close_ticket DbEnv.ok wDB3 30 70).2 ∧
    (pause_ticket DbEnv.ok wDB3 30 "admin" 70).1 = false ∧
    (pause_ticket DbEnv.ok wDB3 30 "admin" 70).2 = wDB3 ∧
    (unpause_ticket DbEnv.ok wDB3 30).1 = true ∧
    (∃ t ∈ wDB3.rows, t.channel_id = 30 ∧ t.status = "paused") := by
  have h := ticket_status_domain DbEnv.ok wDB3 1 30 "u" "r" "d" "admin" 70 (by decide)
  exact ⟨by decide, h.2.1, by decide, h.2.2.2.2.2.2.1 (by decide), by decide,
    h.2.2.2.2.2.2.2.1 (by decide)⟩

/-- C7: when the submitting user has no usable existing channel — no prior
ticket at all, or a latest ticket whose channel no longer exists — the
modal handler creates exactly one new text channel and inserts exactly one
new row for it, with the schema-default status `'open'`, returning the new
row's id in the context. -/
theorem prepare_channel_creates (db : DB) (chans : Nat → Bool) (uid : Nat)
    (uname reason description : String) (now : Int) (freshChan : Nat)
    (hno : (get_user_latest_ticket DbEnv.ok db uid).all
      (fun t => !chans t.channel_id) = true)
    (hfresh : ∀ r ∈ db.rows, r.channel_id ≠ freshChan) :
    prepare_channel DbEnv.ok db chans uid uname reason description now freshChan =
      ⟨some ⟨freshChan, some db.nextId, false⟩,
       ⟨db.rows ++ [newTicketRow db.nextId uid uname freshChan reason description now],
        db.nextId + 1⟩,
       [freshChan]⟩ ∧
    (newTicketRow db.nextId uid uname freshChan reason description now).status = "open" ∧
    (newTicketRow db.nextId uid uname freshChan reason description now).channel_id
      = freshChan := by
  have hany : db.rows.any (fun r => r.channel_id == freshChan) = false := by
    rw [List.any_eq_false]
    intro r hr
    simp [hfresh r hr]
  have hcreate : create_ticket DbEnv.ok db uid uname freshChan reason description now =
      (some db.nextId,
       ⟨db.rows ++ [newTicketRow db.nextId uid uname freshChan reason description now],
        db.nextId + 1⟩) := by
    simp [create_ticket, DbEnv.ok, hany]
  refine ⟨?_, rfl, rfl⟩
  cases hl : get_user_latest_ticket DbEnv.ok db uid with
  | none => simp [prepare_channel, hl, create_channel_with_ticket, hcreate]
  | some t =>
      rw [hl] at hno
      simp only [Option.all_some, Bool.not_eq_true'] at hno
      simp [prepare_channel, hl, hno, create_channel_with_ticket, hcreate]

/-- C7 witness: user 5 has no prior ticket, so submitting the form creates
channel 50 and appends one `'open'` row with id 4. -/
theorem prepare_channel_creates_witness :
    (get_user_latest_ticket DbEnv.ok wDB3 5).all (fun t => !wAllChans t.channel_id) = true ∧
    (∀ r ∈ wDB3.rows, r.channel_id ≠ 50) ∧
    prepare_channel DbEnv.ok wDB3 wAllChans 5 "eve" "Arbo" "help" 400 50 =
      ⟨some ⟨50, some 4, false⟩,
       ⟨wDB3.rows ++ [newTicketRow 4 5 "eve" 50 "Arbo" "help" 400], 5⟩, [50]⟩ := by
  refine ⟨by decide, by decide, ?_⟩
  exact (prepare_channel_creates wDB3 wAllChans 5 "eve" "Arbo" "help" 400 50
    (by decide) (by decide)).1

/-- C4 counterexample: user 1 has an open ticket (id 1) whose channel 10
still exists, yet the button handler does not refuse, because it checks
only the channel of the most recent open ticket (id 2), whose channel 20
was deleted. -/
theorem open_ticket_guard_counterexample :
    open_ticket_refuses cexDB4 cexChans4 1 = false ∧
    cexTicketA ∈ cexDB4.rows ∧
    cexTicketA.user_id = 1 ∧
    cexTicketA.status = "open" ∧
    cexChans4 cexTicketA.channel_id = true := by decide

/-- C4 (amended): the button handler refuses only when the user genuinely
has an open ticket with a live channel (soundness), and refuses exactly
when the most recent open ticket among the user's five most recent tickets
has a channel that still exists; the modal submit path reopens the user's
latest ticket in place — creating no channel and inserting no row — when
that ticket's channel still exists, and otherwise creates one new channel;
the whole check is a read-then-write against `tickets`, not a database
constraint. -/
theorem open_ticket_single_ticket_guard (db : DB) (chans : Nat → Bool) (uid : Nat)
    (uname reason description : String) (now : Int) (freshChan : Nat) :
    (open_ticket_refuses db chans uid = true →
      ∃ t ∈ db.rows, t.user_id = uid ∧ t.status = "open" ∧ chans t.channel_id = true) ∧
    (∀ t : Ticket,
      ((get_user_tickets DbEnv.ok db uid 5).filter (fun s => s.status == "open")).head?
          = some t →
      open_ticket_refuses db chans uid = chans t.channel_id) ∧
    (∀ t : Ticket, get_user_latest_ticket DbEnv.ok db uid = some t →
      chans t.channel_id = true →
      (prepare_channel DbEnv.ok db chans uid uname reason description now
        freshChan).createdChannels = [] ∧
      (prepare_channel DbEnv.ok db chans uid uname reason description now
        freshChan).db.rows.length = db.rows.length ∧
      ∃ tid : Nat, (prepare_channel DbEnv.ok db chans uid uname reason description now
        freshChan).context = some ⟨t.channel_id, some tid, true⟩) ∧
    ((get_user_latest_ticket DbEnv.ok db uid).all (fun t => !chans t.channel_id) = true →
      (prepare_channel DbEnv.ok db chans uid uname reason description now
        freshChan).createdChannels = [freshChan]) := by
  refine ⟨?_, ?_, ?_, ?_⟩
  · intro h
    unfold open_ticket_refuses at h
    cases hf : (get_user_tickets DbEnv.ok db uid 5).filter (fun s => s.status == "open") with
    | nil => rw [hf] at h; simp at h
    | cons t tl =>
        rw [hf] at h
        have htf : t ∈ (get_user_tickets DbEnv.ok db uid 5).filter
            (fun s => s.status == "open") := by
          rw [hf]; exact List.mem_cons_self t tl
        have ht1 := List.mem_filter.mp htf
        have ht2 : t ∈ sortByIdDesc (db.rows.filter (fun r => r.user_id == uid)) :=
          List.take_subset 5 _ ht1.1
        have ht3 : t ∈ db.rows.filter (fun r => r.user_id == uid) :=
          (List.perm_insertionSort byIdDesc _).mem_iff.mp ht2
        have ht4 := List.mem_filter.mp ht3
        exact ⟨t, ht4.1, by simpa using ht4.2, by simpa using ht1.2, h⟩
  · intro t ht
    unfold open_ticket_refuses
    cases hf : (get_user_tickets DbEnv.ok db uid 5).filter (fun s => s.status == "open") with
    | nil => rw [hf] at ht; simp at ht
    | cons a tl =>
        rw [hf] at ht
        have : a = t := by simpa using ht
        rw [this]
  · intro t hl hc
    have hl2 : latestByUser db.rows uid = some t := hl
    obtain ⟨htm, htu, _⟩ := head?_sortByIdDesc_filter hl2
    obtain ⟨s, hs⟩ := head?_sortByIdDesc_filter_isSome
      (p := fun r => r.channel_id == t.channel_id) htm (by simp)
    have hs2 : latestByChannel db.rows t.channel_id = some s := hs
    have hre : reopen_ticket DbEnv.ok db t.channel_id reason description now =
        (some s.id,
         ⟨(sqlUpdate (fun r => r.id == s.id) (reopenedRow reason description now) db.rows).1,
          db.nextId⟩) := by
      simp [reopen_ticket, DbEnv.ok, hs2]
    refine ⟨?_, ?_, ⟨s.id, ?_⟩⟩ <;>
      simp [prepare_channel, hl, hc, hre, sqlUpdate]
  · intro hno
    cases hl : get_user_latest_ticket DbEnv.ok db uid with
    | none => simp [prepare_channel, hl, create_channel_with_ticket]
    | some t =>
        rw [hl] at hno
        simp only [Option.all_some, Bool.not_eq_true'] at hno
        simp [prepare_channel, hl, hno, create_channel_with_ticket]

/-- C4 witness: user 1's latest (and only) ticket lives in channel 10, which
exists, so the button refuses and the modal path reopens in place. -/
theorem open_ticket_single_ticket_guard_witness :
    open_ticket_refuses wDB3 wAllChans 1 = wAllChans wOpenA.channel_id ∧
    (prepare_channel DbEnv.ok wDB3 wAllChans 1 "alice" "Arbo" "again" 500 60).createdChannels
      = [] ∧
    (prepare_channel DbEnv.ok wDB3 wAllChans 1 "alice" "Arbo" "again" 500 60).db.rows.length
      = wDB3.rows.length ∧
    (∃ tid : Nat, (prepare_channel DbEnv.ok wDB3 wAllChans 1 "alice" "Arbo" "again" 500
      60).context = some ⟨wOpenA.channel_id, some tid, true⟩) := by
  have h := open_ticket_single_ticket_guard wDB3 wAllChans 1 "alice" "Arbo" "again" 500 60
  have h2 := h.2.2.1 wOpenA (by decide) (by decide)
  exact ⟨h.2.1 wOpenA (by decide), h2.1, h2.2.1, h2.2.2⟩

/-- Unfolding `applyClose` over a cons: apply the step for the first
snapshot ticket, then the rest. -/
theorem applyClose_cons (chans : Nat → Bool) (now : Int) (t : Ticket)
    (ts : List Ticket) (r : Ticket) :
    applyClose chans now (t :: ts) r =
      applyClose chans now ts
        (if autoCloseDelta ≤ now - t.created_at then
          if chans t.channel_id then
            (if closeCond t.channel_id r then closedRow now r else r)
          else r
        else r) := rfl

/-- Unfolding `applyClose` over an append. -/
theorem applyClose_append (chans : Nat → Bool) (now : Int) (a b : List Ticket)
    (r : Ticket) :
    applyClose chans now (a ++ b) r = applyClose chans now b (applyClose chans now a r) := by
  simp [applyClose, List.foldl_append]

/-- A row already `'closed'` is never touched by the sweep steps. -/
theorem applyClose_closed (chans : Nat → Bool) (now : Int) :
    ∀ (ts : List Ticket) (r : Ticket), r.status = "closed" →
      applyClose chans now ts r = r := by
  intro ts
  induction ts with
  | nil => intro r _; rfl
  | cons t ts ih =>
      intro r h
      rw [applyClose_cons]
      have hcc : closeCond t.channel_id r = false := by simp [closeCond, h]
      have hstep : (if autoCloseDelta ≤ now - t.created_at then
          if chans t.channel_id then
            (if closeCond t.channel_id r then closedRow now r else r)
          else r
        else r) = r := by simp [hcc]
      rw [hstep]
      exact ih r h

/-- A row whose channel differs from every snapshot ticket's channel is
never touched by the sweep steps. -/
theorem applyClose_nochan (chans : Nat → Bool) (now : Int) :
    ∀ (ts : List Ticket) (r : Ticket),
      (∀ t ∈ ts, t.channel_id ≠ r.channel_id) → applyClose chans now ts r = r := by
  intro ts
  induction ts with
  | nil => intro r _; rfl
  | cons t ts ih =>
      intro r h
      rw [applyClose_cons]
      have hne := h t (List.mem_cons_self t ts)
      have hbeq : (r.channel_id == t.channel_id) = false :=
        beq_eq_false_iff_ne.mpr (fun hh => hne hh.symm)
      have hcc : closeCond t.channel_id r = false := by simp [closeCond, hbeq]
      have hstep : (if autoCloseDelta ≤ now - t.created_at then
          if chans t.channel_id then
            (if closeCond t.channel_id r then closedRow now r else r)
          else r
        else r) = r := by simp [hcc]
      rw [hstep]
      exact ih r (fun s hs => h s (List.mem_cons_of_mem t hs))

/-- The sweep's fold is a pointwise map over the table rows and never
changes the `SERIAL` counter. -/
theorem foldl_close_eq_map (chans : Nat → Bool) (now : Int) :
    ∀ (ts : List Ticket) (db : DB),
      ts.foldl
        (fun d t =>
          if autoCloseDelta ≤ now - t.created_at then
            if chans t.channel_id then (close_ticket DbEnv.ok d t.channel_id now).2 else d
          else d) db
      = ⟨db.rows.map (applyClose chans now ts), db.nextId⟩ := by
  intro ts
  induction ts with
  | nil =>
      intro db
      obtain ⟨rs, n⟩ := db
      have hmap : rs.map (applyClose chans now []) = rs := by
        conv_rhs => rw [← List.map_id rs]
        exact List.map_congr_left fun r _ => rfl
      simp [hmap]
  | cons t ts ih =>
      intro db
      rw [List.foldl_cons, ih]
      by_cases h1 : autoCloseDelta ≤ now - t.created_at
      · by_cases h2 : chans t.channel_id
        · have hcl : (close_ticket DbEnv.ok db t.channel_id now).2 =
              ⟨db.rows.map
                (fun s => if closeCond t.channel_id s then closedRow now s else s),
               db.nextId⟩ := by
            simp [close_ticket, DbEnv.ok, sqlUpdate]
          simp only [if_pos h1, h2, if_true, hcl]
          congr 1
          rw [List.map_map]
          apply List.map_congr_left
          intro r _
          rw [Function.comp_apply, applyClose_cons]
          simp only [if_pos h1, h2, if_true]
        · simp only [if_pos h1, h2, if_false, Bool.false_eq_true]
          congr 1
          apply List.map_congr_left
          intro r _
          rw [applyClose_cons]
          simp only [if_pos h1, h2, if_false, Bool.false_eq_true]
      · simp only [if_neg h1]
        congr 1
        apply List.map_congr_left
        intro r _
        rw [applyClose_cons]
        simp only [if_neg h1]

/-- C1 counterexample: `cexStaleTicket` is returned by `get_open_tickets`
and its age is far past the threshold, yet when its channel was deleted
(`self.get_channel` returns `None`) one sweep iteration leaves the whole
table — including this stale open ticket — unchanged, contradicting
"closes every open ticket whose age exceeds the threshold". -/
theorem auto_close_counterexample :
    get_open_tickets DbEnv.ok cexDB1 = [cexStaleTicket] ∧
    autoCloseDelta ≤ cexNow1 - cexStaleTicket.created_at ∧
    cexStaleTicket.status = "open" ∧
    auto_close_tickets cexNoChannels cexNow1 cexDB1 = cexDB1 := by decide

/-- C1 (amended): provided channel ids are unique across rows (the schema's
`UNIQUE` constraint), one iteration of the sweep closes exactly the open
tickets whose age is at least the `auto_close_hours` threshold AND whose
channel still exists, rewriting them with `closedRow` (status `'closed'`,
`closed_at` set to now), and leaves every other row — younger open
tickets, open tickets whose channel is gone, paused tickets, closed
tickets — unchanged. -/
theorem auto_close_tickets_spec (chans : Nat → Bool) (now : Int) (db : DB)
    (hnd : (db.rows.map Ticket.channel_id).Nodup) :
    (∀ t ∈ get_open_tickets DbEnv.ok db, t ∈ db.rows ∧ t.status = "open") ∧
    (auto_close_tickets chans now db).rows =
      db.rows.map (fun r =>
        if r.status = "open" ∧ autoCloseDelta ≤ now - r.created_at ∧
            chans r.channel_id = true
        then closedRow now r else r) ∧
    (auto_close_tickets chans now db).nextId = db.nextId := by
  have hperm : List.Perm (get_open_tickets DbEnv.ok db)
      (db.rows.filter (fun r => r.status == "open")) :=
    List.perm_insertionSort byCreatedAsc _
  have hmem : ∀ t ∈ get_open_tickets DbEnv.ok db, t ∈ db.rows ∧ t.status = "open" := by
    intro t ht
    have := List.mem_filter.mp (hperm.mem_iff.mp ht)
    exact ⟨this.1, by simpa using this.2⟩
  have htsnd : ((get_open_tickets DbEnv.ok db).map Ticket.channel_id).Nodup := by
    have hsub : List.Sublist
        ((db.rows.filter (fun r => r.status == "open")).map Ticket.channel_id)
        (db.rows.map Ticket.channel_id) :=
      (List.filter_sublist db.rows).map Ticket.channel_id
    exact ((hperm.map Ticket.channel_id).nodup_iff).mpr (hnd.sublist hsub)
  have hfold := foldl_close_eq_map chans now (get_open_tickets DbEnv.ok db) db
  have hrows : (auto_close_tickets chans now db).rows =
      db.rows.map (applyClose chans now (get_open_tickets DbEnv.ok db)) := by
    unfold auto_close_tickets
    rw [hfold]
  have hnext : (auto_close_tickets chans now db).nextId = db.nextId := by
    unfold auto_close_tickets
    rw [hfold]
  refine ⟨hmem, ?_, hnext⟩
  rw [hrows]
  apply List.map_congr_left
  intro r hr
  by_cases hst : r.status = "open"
  · have hrts : r ∈ get_open_tickets DbEnv.ok db :=
      hperm.mem_iff.mpr (List.mem_filter.mpr ⟨hr, by simp [hst]⟩)
    obtain ⟨l1, l2, hdec⟩ := List.append_of_mem hrts
    have hmapnd := htsnd
    rw [hdec, List.map_append, List.map_cons] at hmapnd
    have hnotin := (List.nodup_cons.mp (List.nodup_middle.mp hmapnd)).1
    have h1 : ∀ t ∈ l1, t.channel_id ≠ r.channel_id := by
      intro t htl hh
      exact hnotin (List.mem_append_left _ (List.mem_map.mpr ⟨t, htl, hh⟩))
    have h2 : ∀ t ∈ l2, t.channel_id ≠ r.channel_id := by
      intro t htl hh
      exact hnotin (List.mem_append_right _ (List.mem_map.mpr ⟨t, htl, hh⟩))
    rw [hdec, applyClose_append, applyClose_nochan chans now l1 r h1, applyClose_cons]
    by_cases hd : autoCloseDelta ≤ now - r.created_at
    · by_cases hc : chans r.channel_id
      · have hcc : closeCond r.channel_id r = true := by simp [closeCond, hst]
        rw [if_pos hd, if_pos hc, if_pos hcc]
        rw [applyClose_closed chans now l2 (closedRow now r) rfl]
        rw [if_pos ⟨hst, hd, hc⟩]
      · rw [if_pos hd, if_neg hc]
        rw [applyClose_nochan chans now l2 r h2]
        rw [if_neg (fun hcon => hc hcon.2.2)]
    · simp only [if_neg hd]
      rw [applyClose_nochan chans now l2 r h2]
      rw [if_neg (fun hcon => hd hcon.2.1)]
  · have hnochan : ∀ t ∈ get_open_tickets DbEnv.ok db, t.channel_id ≠ r.channel_id := by
      intro t htm hh
      obtain ⟨htr, hto⟩ := hmem t htm
      have : t = r := List.inj_on_of_nodup_map hnd htr hr hh
      rw [this] at hto
      exact hst hto
    rw [applyClose_nochan chans now _ r hnochan]
    rw [if_neg (fun hcon => hst hcon.1)]

/-- C1 witness: on a table with one stale open ticket (closed by the
sweep), one closed, one paused and one young open ticket (all untouched),
with every channel alive. -/
theorem auto_close_tickets_spec_witness :
    (wDBfull.rows.map Ticket.channel_id).Nodup ∧
    (auto_close_tickets wAllChans 50000 wDBfull).rows =
      [closedRow 50000 wOpenA, wClosedB, wPausedC, wOpenD] := by
  refine ⟨by decide, ?_⟩
  rw [(auto_close_tickets_spec wAllChans 50000 wDBfull (by decide)).2.1]
  decide
